import Mathlib

/-!
Verification of the L2L Dispatch API example client (src/api/main.py).

The development shallowly embeds the utility functions `dcu` and `respcheck`
and the patterns of `main` (base-parameter construction, offset pagination,
datetime formatting) as executable Lean definitions, and proves the spec's
testable properties about them.
-/

namespace L2L

/-- Values decoded from a JSON response body (the result of `resp.json()`).
Numbers are modelled as integers; the program only exchanges integers,
strings, booleans, arrays and objects. -/
inductive Json where
  | null
  | bool (b : Bool)
  | num (n : Int)
  | str (s : String)
  | arr (elems : List Json)
  | obj (fields : List (String × Json))

/-- Python truthiness of a decoded JSON value, as used by
`if not respjson['success']` in `respcheck` (src/api/main.py line 253):
None, False, 0, empty string, empty list and empty dict are falsy. -/
def truthy : Json → Bool
  | .null => false
  | .bool b => b
  | .num n => n != 0
  | .str s => s != ""
  | .arr xs => !xs.isEmpty
  | .obj fs => !fs.isEmpty

/-- Single-quote character, used by the Python repr of strings. -/
def squote : String := String.singleton (Char.ofNat 39)

/-- Comma-space separated concatenation, as Python renders containers. -/
def commaSep : List String → String
  | [] => ""
  | [s] => s
  | s :: rest => s ++ ", " ++ commaSep rest

mutual

/-- Python `repr` of a decoded JSON value (string escaping elided): None,
True/False, digits, quoted strings, bracketed lists, braced dicts. -/
def pyRepr : Json → String
  | .null => "None"
  | .bool true => "True"
  | .bool false => "False"
  | .num n => toString n
  | .str s => squote ++ s ++ squote
  | .arr xs => "[" ++ commaSep (pyReprList xs) ++ "]"
  | .obj fs => "\x7b" ++ commaSep (pyReprFields fs) ++ "\x7d"

/-- Python reprs of the elements of a decoded JSON array. -/
def pyReprList : List Json → List String
  | [] => []
  | x :: rest => pyRepr x :: pyReprList rest

/-- Python reprs of the entries of a decoded JSON object. -/
def pyReprFields : List (String × Json) → List String
  | [] => []
  | (k, v) :: rest => (squote ++ k ++ squote ++ ": " ++ pyRepr v) :: pyReprFields rest

end

/-- Python `str` of a decoded JSON value, as interpolated by an f-string:
`str` of a string is the string itself, every other value renders as its repr
(for scalars this coincides with their str form). -/
def pyStr (j : Json) : String :=
  match j with
  | .str s => s
  | j => pyRepr j

/-- A Python dict with string keys, modelled as its entry list in insertion
order (a Python dict never holds duplicate keys). -/
abbrev PyDict (α : Type) := List (String × α)

namespace PyDict

/-- Python `d[k] = v`: replace the value of an existing key in place,
otherwise append the new entry at the end. -/
def setItem : PyDict α → String → α → PyDict α
  | [], k, v => [(k, v)]
  | (k', v') :: rest, k, v =>
      if k' = k then (k, v) :: rest else (k', v') :: setItem rest k v

/-- Python `d.update(d2)`: set each entry of `d2` into `d`, in order. -/
def update (d : PyDict α) (d2 : PyDict α) : PyDict α :=
  d2.foldl (fun acc kv => setItem acc kv.1 kv.2) d

/-- Python `d[k]` as a lookup: the value at the first entry with key `k`. -/
def get? : PyDict α → String → Option α
  | [], _ => none
  | (k', v) :: rest, k => if k' = k then some v else get? rest k

end PyDict

/-- `dcu(d1, d2)` from src/api/main.py lines 238-242: dict copy and update.
`d1.copy()` is a shallow copy, so at the level of contents the result starts
as `d1` itself; the heap model below captures the fresh allocation. -/
def dcu (d1 d2 : PyDict α) : PyDict α :=
  PyDict.update d1 d2

/-- The kinds of exception `respcheck` can raise: `Exception(msg)` raised
explicitly, the `JSONDecodeError` propagated out of `resp.json()`, the
`KeyError` of a missing dict key, and the `TypeError` of subscripting a
non-dict with a string key. -/
inductive PyError where
  | exn (msg : String)
  | jsonDecodeError
  | keyError (key : String)
  | typeError
deriving DecidableEq

/-- The transport-layer response handed to `respcheck`: the HTTP status
code, the raw body (modelled as its text), and the outcome of decoding the
body as JSON (`none` when `resp.json()` would raise). -/
structure Response where
  status_code : Nat
  content : String
  parsed : Option Json

/-- `resp.ok` of the requests library: true exactly when
`raise_for_status()` would not raise, i.e. when the status code is outside
the client-error/server-error range 400..599. In particular 1xx and 3xx
statuses count as ok. -/
def Response.ok (resp : Response) : Bool :=
  !(400 ≤ resp.status_code && resp.status_code < 600)

/-- `respcheck(resp, getdata)` from src/api/main.py lines 245-256, with the
raised exceptions reified in the `Except` error component. -/
def respcheck (resp : Response) (getdata : Bool) : Except PyError Json :=
  if !resp.ok then
    .error (.exn ("API call system failure, status: " ++ toString resp.status_code
      ++ ", error: " ++ resp.content))
  else
    match resp.parsed with
    | none => .error .jsonDecodeError
    | some respjson =>
      match respjson with
      | .obj fields =>
        match PyDict.get? fields "success" with
        | none => .error (.keyError "success")
        | some sv =>
          if !truthy sv then
            match PyDict.get? fields "error" with
            | none => .error (.keyError "error")
            | some ev => .error (.exn ("API call failed, error: " ++ pyStr ev))
          else
            if getdata then
              match PyDict.get? fields "data" with
              | none => .error (.keyError "data")
              | some d => .ok d
            else .ok respjson
      | _ => .error .typeError

/-- A heap of Python dict objects: the cell at index `a` holds the current
contents of the dict object whose identity is `a`. -/
structure Store (α : Type) where
  cells : List (PyDict α)

namespace Store

/-- Allocate a fresh dict object with the given contents (as `d1.copy()` or
a dict literal does), returning the new heap and the fresh address. -/
def alloc (σ : Store α) (d : PyDict α) : Store α × Nat :=
  (⟨σ.cells ++ [d]⟩, σ.cells.length)

/-- Overwrite the contents of the dict object at `a` (in-place mutation). -/
def writeA (σ : Store α) (a : Nat) (d : PyDict α) : Store α :=
  ⟨σ.cells.set a d⟩

/-- Read the contents of the dict object at `a`. Addresses in the modelled
run always come from `alloc`, so the default is never reached. -/
def readA (σ : Store α) (a : Nat) : PyDict α :=
  σ.cells.getD a []

end Store

/-- `dcu(d1, d2)` at the heap level, following src/api/main.py lines 238-242
step by step: `rval = d1.copy()` allocates a fresh dict with `d1`'s contents,
`rval.update(d2)` mutates only that fresh object, and `rval` is returned. -/
def dcuH (σ : Store α) (a1 a2 : Nat) : Store α × Nat :=
  let d1 := σ.readA a1
  let d2 := σ.readA a2
  let (σ1, rval) := σ.alloc d1
  (σ1.writeA rval (PyDict.update d1 d2), rval)

/-- The base parameter dict as first built at src/api/main.py line 52:
`args = {'auth': apikey}`. -/
def argsInit (apikey : String) : PyDict Json :=
  [("auth", Json.str apikey)]

/-- Construction of the per-run base parameter mapping, src/api/main.py
lines 52-69: allocate `{'auth': apikey}`, then after validating the site set
`args['site'] = site` in place. Returns the heap and the dict's address. -/
def constructArgs (σ : Store Json) (apikey : String) (site : Int) : Store Json × Nat :=
  let (σ1, a) := σ.alloc (argsInit apikey)
  (σ1.writeA a (PyDict.setItem (σ1.readA a) "site" (Json.num site)), a)

/-- The rest of the run as it touches parameter dicts: each API call builds
a per-call override dict literal and passes `dcu(args, overrides)`
(src/api/main.py lines 65-224); no other operation reads or writes a dict. -/
def runCalls (σ : Store Json) (a : Nat) : List (PyDict Json) → Store Json
  | [] => σ
  | d :: ds =>
      let (σ1, o) := σ.alloc d
      runCalls (dcuH σ1 a o).1 a ds

/-- One page as served by the `areas/` listing: the slice of the stable
resource list starting at `offset`, at most `limit` items long. -/
def serverPage (items : List α) (limit offset : Nat) : List α :=
  (items.drop offset).take limit

/-- The pagination loop of src/api/main.py lines 79-94, returning the list
of pages received in order: request a page; if it has fewer than `limit`
items it is the last, otherwise advance `offset` by the count received and
repeat. `fuel` bounds the iteration count so the loop is total. -/
def pageLoop (items : List α) (limit : Nat) : Nat → Nat → List (List α)
  | 0, _ => []
  | fuel + 1, offset =>
      let data := serverPage items limit offset
      if data.length < limit then [data]
      else data :: pageLoop items limit fuel (offset + data.length)

/-- The pagination loop run from `offset = 0` with enough fuel for the whole
list (each non-final iteration consumes at least one item). -/
def paginate (items : List α) (limit : Nat) : List (List α) :=
  pageLoop items limit (items.length + 1) 0

/-- Minute-precision datetime format constant, src/api/main.py line 25. -/
def API_MINUTE_FORMAT : String := "%Y-%m-%d %H:%M"

/-- Seconds-precision datetime format constant, src/api/main.py line 26. -/
def API_SECONDS_FORMAT : String := "%Y-%m-%d %H:%M:%S"

/-- A wall-clock timestamp as held by a Python `datetime`. -/
structure PyDateTime where
  year : Nat
  month : Nat
  day : Nat
  hour : Nat
  minute : Nat
  second : Nat

/-- Zero-pad a number to two digits, as strftime renders m, d, H, M, S. -/
def pad2 (n : Nat) : String :=
  if n < 10 then "0" ++ toString n else toString n

/-- Zero-pad a number to four digits, as strftime renders the year. -/
def pad4 (n : Nat) : String :=
  if n < 10 then "000" ++ toString n
  else if n < 100 then "00" ++ toString n
  else if n < 1000 then "0" ++ toString n
  else toString n

/-- The strftime directives the two format constants use. An unrecognised
directive is left in the output verbatim (no claim exercises one). -/
def directive (t : PyDateTime) (c : Char) : String :=
  if c = 'Y' then pad4 t.year
  else if c = 'm' then pad2 t.month
  else if c = 'd' then pad2 t.day
  else if c = 'H' then pad2 t.hour
  else if c = 'M' then pad2 t.minute
  else if c = 'S' then pad2 t.second
  else "%" ++ String.singleton c

/-- Format-string interpreter over the character list of the format. -/
def strftimeAux (t : PyDateTime) : List Char → List Char
  | [] => []
  | '%' :: c :: rest => (directive t c).toList ++ strftimeAux t rest
  | ['%'] => ['%']
  | c :: rest => c :: strftimeAux t rest

/-- Python `t.strftime(fmt)` for the directives used by the program. -/
def strftime (t : PyDateTime) (fmt : String) : String :=
  String.mk (strftimeAux t fmt.toList)

/-! Helper lemmas about the dict and heap operations. -/

theorem get?_setItem_self (d : PyDict α) (k : String) (v : α) :
    PyDict.get? (PyDict.setItem d k v) k = some v := by
  induction d with
  | nil => simp [PyDict.setItem, PyDict.get?]
  | cons kv rest ih =>
    obtain ⟨k', v'⟩ := kv
    by_cases h : k' = k
    · simp [PyDict.setItem, PyDict.get?, h]
    · simp [PyDict.setItem, PyDict.get?, h, ih]

theorem get?_setItem_ne (d : PyDict α) (k k' : String) (v : α) (h : k ≠ k') :
    PyDict.get? (PyDict.setItem d k v) k' = PyDict.get? d k' := by
  induction d with
  | nil => simp [PyDict.setItem, PyDict.get?, h]
  | cons kv rest ih =>
    obtain ⟨k0, v0⟩ := kv
    by_cases h0 : k0 = k
    · subst h0
      simp [PyDict.setItem, PyDict.get?, h]
    · simp [PyDict.setItem, PyDict.get?, h0, ih]

theorem get?_eq_none_of_not_mem (d : PyDict α) (k : String)
    (h : k ∉ d.map Prod.fst) : PyDict.get? d k = none := by
  induction d with
  | nil => rfl
  | cons kv rest ih =>
    obtain ⟨k0, v0⟩ := kv
    simp only [List.map_cons, List.mem_cons] at h
    push_neg at h
    have hne : ¬k0 = k := fun hx => h.1 hx.symm
    simp [PyDict.get?, hne, ih h.2]

theorem get?_update (d1 d2 : PyDict α) (hnd : (d2.map Prod.fst).Nodup) (k : String) :
    PyDict.get? (PyDict.update d1 d2) k
      = (PyDict.get? d2 k).or (PyDict.get? d1 k) := by
  induction d2 generalizing d1 with
  | nil => rfl
  | cons kv rest ih =>
    obtain ⟨k0, v0⟩ := kv
    simp only [List.map_cons, List.nodup_cons] at hnd
    have hstep : PyDict.update d1 ((k0, v0) :: rest)
        = PyDict.update (PyDict.setItem d1 k0 v0) rest := rfl
    rw [hstep, ih _ hnd.2]
    by_cases hk : k0 = k
    · subst hk
      rw [get?_eq_none_of_not_mem rest k0 hnd.1, get?_setItem_self]
      simp [PyDict.get?]
    · rw [get?_setItem_ne _ _ _ _ hk]
      simp [PyDict.get?, hk]

theorem readA_alloc_of_lt (σ : Store α) (d : PyDict α) (a : Nat)
    (h : a < σ.cells.length) : ((σ.alloc d).1).readA a = σ.readA a := by
  simp [Store.alloc, Store.readA, List.getD_eq_getElem?_getD,
    List.getElem?_append_left h]

theorem readA_alloc_last (σ : Store α) (d : PyDict α) :
    ((σ.alloc d).1).readA σ.cells.length = d := by
  simp [Store.alloc, Store.readA, List.getD_eq_getElem?_getD,
    List.getElem?_concat_length]

theorem readA_writeA_ne (σ : Store α) (r a : Nat) (d : PyDict α) (h : r ≠ a) :
    (σ.writeA r d).readA a = σ.readA a := by
  simp [Store.writeA, Store.readA, List.getD_eq_getElem?_getD,
    List.getElem?_set_ne h]

theorem readA_writeA_self (σ : Store α) (r : Nat) (d : PyDict α)
    (h : r < σ.cells.length) : (σ.writeA r d).readA r = d := by
  simp [Store.writeA, Store.readA, List.getD_eq_getElem?_getD,
    List.getElem?_set_self h]

theorem alloc_snd (σ : Store α) (d : PyDict α) : (σ.alloc d).2 = σ.cells.length := rfl

theorem alloc_length (σ : Store α) (d : PyDict α) :
    ((σ.alloc d).1).cells.length = σ.cells.length + 1 := by
  simp [Store.alloc]

theorem writeA_length (σ : Store α) (r : Nat) (d : PyDict α) :
    ((σ.writeA r d).cells).length = σ.cells.length := by
  simp [Store.writeA]

theorem dcuH_eq (σ : Store α) (a1 a2 : Nat) :
    dcuH σ a1 a2
      = ((σ.alloc (σ.readA a1)).1.writeA σ.cells.length
          (PyDict.update (σ.readA a1) (σ.readA a2)), σ.cells.length) := rfl

theorem dcuH_snd (σ : Store α) (a1 a2 : Nat) : (dcuH σ a1 a2).2 = σ.cells.length := rfl

theorem dcuH_length (σ : Store α) (a1 a2 : Nat) :
    ((dcuH σ a1 a2).1).cells.length = σ.cells.length + 1 := by
  rw [dcuH_eq]
  simp [writeA_length, alloc_length]

theorem dcuH_readA_of_lt (σ : Store α) (a1 a2 a : Nat) (h : a < σ.cells.length) :
    ((dcuH σ a1 a2).1).readA a = σ.readA a := by
  rw [dcuH_eq]
  have hne : σ.cells.length ≠ a := by omega
  rw [readA_writeA_ne _ _ _ _ hne, readA_alloc_of_lt _ _ _ h]

theorem dcuH_readA_result (σ : Store α) (a1 a2 : Nat) :
    ((dcuH σ a1 a2).1).readA σ.cells.length
      = PyDict.update (σ.readA a1) (σ.readA a2) := by
  rw [dcuH_eq]
  exact readA_writeA_self _ _ _ (by simp [alloc_length])

theorem runCalls_readA (ds : List (PyDict Json)) :
    ∀ (σ : Store Json) (a : Nat), a < σ.cells.length →
      (runCalls σ a ds).readA a = σ.readA a := by
  induction ds with
  | nil => intro σ a h; rfl
  | cons d rest ih =>
    intro σ a h
    have h1 : a < ((σ.alloc d).1).cells.length := by rw [alloc_length]; omega
    have h2 : a < ((dcuH (σ.alloc d).1 a (σ.alloc d).2).1).cells.length := by
      rw [dcuH_length]; omega
    calc (runCalls σ a (d :: rest)).readA a
        = ((dcuH (σ.alloc d).1 a (σ.alloc d).2).1).readA a := ih _ _ h2
      _ = ((σ.alloc d).1).readA a := dcuH_readA_of_lt _ _ _ _ h1
      _ = σ.readA a := readA_alloc_of_lt _ _ _ h

/-! Claim theorems. -/

/-- Claim C1, counterexample: the claim says every response with a status
outside the 2xx range makes `respcheck` raise a System Failure and never
return normally. Status 300 is outside 2xx, yet `resp.ok` of the requests
library is true for it, so `respcheck` proceeds and returns the data. -/
theorem respcheck_status300_returns :
    ¬(200 ≤ 300 ∧ 300 < 300)
    ∧ respcheck ⟨300, "redirect body",
        some (.obj [("success", Json.bool true), ("data", Json.null)])⟩ true
      = .ok Json.null :=
  ⟨by decide, rfl⟩

/-- Claim C1 (corrected): for every transport response whose HTTP status
code lies in 400..599 — the statuses the requests library's `ok` reports as
failures; 1xx and 3xx statuses pass the check — `respcheck` raises a System
Failure `Exception` whose message carries the original status code and the
raw response body, regardless of body content, and never returns normally. -/
theorem respcheck_system_failure (resp : Response) (getdata : Bool)
    (h1 : 400 ≤ resp.status_code) (h2 : resp.status_code < 600) :
    respcheck resp getdata
      = .error (.exn ("API call system failure, status: "
          ++ toString resp.status_code ++ ", error: " ++ resp.content)) := by
  have hok : resp.ok = false := by
    simp [Response.ok, h1, h2]
  simp [respcheck, hok]

/-- Claim C1, witness: the system-failure theorem applied to a concrete 500
response with body text `oops`. -/
theorem respcheck_system_failure_witness :
    respcheck ⟨500, "oops", none⟩ true
      = .error (.exn "API call system failure, status: 500, error: oops") :=
  respcheck_system_failure ⟨500, "oops", none⟩ true (by decide) (by decide)

/-- Claim C2 (confirmed): for every response with 2xx status and body
`{"success": true, "data": D}`, `respcheck` with `getdata = true` returns
exactly `D`, and with `getdata = false` returns the entire parsed envelope,
without raising. -/
theorem respcheck_success_envelope (s : Nat) (content : String) (D : Json)
    (h1 : 200 ≤ s) (h2 : s < 300) :
    respcheck ⟨s, content, some (.obj [("success", Json.bool true), ("data", D)])⟩ true
      = .ok D
    ∧ respcheck ⟨s, content, some (.obj [("success", Json.bool true), ("data", D)])⟩ false
      = .ok (.obj [("success", Json.bool true), ("data", D)]) := by
  have hok : (Response.mk s content
      (some (.obj [("success", Json.bool true), ("data", D)]))).ok = true := by
    simp [Response.ok]
    omega
  constructor <;> simp [respcheck, hok, truthy, PyDict.get?]

/-- Claim C2, witness: a concrete 200 response with data payload `7`. -/
theorem respcheck_success_envelope_witness :
    respcheck ⟨200, "body",
        some (.obj [("success", Json.bool true), ("data", Json.num 7)])⟩ true
      = .ok (Json.num 7)
    ∧ respcheck ⟨200, "body",
        some (.obj [("success", Json.bool true), ("data", Json.num 7)])⟩ false
      = .ok (.obj [("success", Json.bool true), ("data", Json.num 7)]) :=
  respcheck_success_envelope 200 "body" (Json.num 7) (by decide) (by decide)

/-- Claim C3 (confirmed): for every response with 2xx status and body
`{"success": false, "error": E}` with `E` a string, `respcheck` raises the
Application Failure `Exception` carrying `E` as its message payload (the
exception text is the fixed prefix `API call failed, error: ` followed
verbatim by `E`), for either value of the `getdata` flag. -/
theorem respcheck_app_failure (s : Nat) (content : String) (E : String)
    (getdata : Bool) (h1 : 200 ≤ s) (h2 : s < 300) :
    respcheck ⟨s, content, some (.obj [("success", Json.bool false), ("error", Json.str E)])⟩
        getdata
      = .error (.exn ("API call failed, error: " ++ E)) := by
  have hok : (Response.mk s content
      (some (.obj [("success", Json.bool false), ("error", Json.str E)]))).ok = true := by
    simp [Response.ok]
    omega
  simp [respcheck, hok, truthy, PyDict.get?, pyStr]

/-- Claim C3, witness: a concrete 200 response whose envelope reports
failure with message `boom`, under both flag values. -/
theorem respcheck_app_failure_witness :
    respcheck ⟨200, "body",
        some (.obj [("success", Json.bool false), ("error", Json.str "boom")])⟩ true
      = .error (.exn "API call failed, error: boom")
    ∧ respcheck ⟨200, "body",
        some (.obj [("success", Json.bool false), ("error", Json.str "boom")])⟩ false
      = .error (.exn "API call failed, error: boom") :=
  ⟨respcheck_app_failure 200 "body" "boom" true (by decide) (by decide),
   respcheck_app_failure 200 "body" "boom" false (by decide) (by decide)⟩

/-- Claim C4, counterexample: the claim says an unparseable 2xx body fails
with the same error kind as a failing status, indistinguishable in kind. On
the code the parse failure propagates the decoder's `JSONDecodeError`, while
a failing status raises a bare `Exception` — two distinguishable kinds (a
caller catching `ValueError` catches only the former). -/
theorem respcheck_unparseable_distinct_kind :
    respcheck ⟨200, "not json", none⟩ true = .error .jsonDecodeError
    ∧ respcheck ⟨500, "not json", none⟩ true
      = .error (.exn "API call system failure, status: 500, error: not json")
    ∧ PyError.jsonDecodeError
      ≠ PyError.exn "API call system failure, status: 500, error: not json" :=
  ⟨rfl, rfl, by decide⟩

/-- Claim C4 (corrected): for every response with 2xx status whose body
fails to parse as JSON, `respcheck` fails by propagating the decoder's
`JSONDecodeError` and never returns a value; this is a system-level failure,
but its kind differs from the bare `Exception` raised for a failing status,
so the two cases are distinguishable by a caller. -/
theorem respcheck_unparseable_body (resp : Response) (getdata : Bool)
    (h1 : 200 ≤ resp.status_code) (h2 : resp.status_code < 300)
    (hp : resp.parsed = none) :
    respcheck resp getdata = .error .jsonDecodeError := by
  have hok : resp.ok = true := by
    simp [Response.ok]
    omega
  simp [respcheck, hok, hp]

/-- Claim C4, witness: a concrete 200 response with an undecodable body. -/
theorem respcheck_unparseable_body_witness :
    respcheck ⟨200, "garbage", none⟩ false = .error .jsonDecodeError :=
  respcheck_unparseable_body ⟨200, "garbage", none⟩ false (by decide) (by decide) rfl

/-- Claim C5 (confirmed): `dcu` returns a mapping whose keys are the union
of both inputs, where a key present in the overrides maps to the override
value and every other key to its base value; in particular
`dcu({a:1,b:2},{b:3,c:4}) = {a:1,b:3,c:4}`; and the base dict object is left
unmutated, since `dcu` writes only to the fresh copy it allocates. -/
theorem dcu_merge_spec (d1 d2 : PyDict Int) (hnd : (d2.map Prod.fst).Nodup) :
    (∀ k, PyDict.get? (dcu d1 d2) k = (PyDict.get? d2 k).or (PyDict.get? d1 k))
    ∧ (∀ k, (PyDict.get? (dcu d1 d2) k).isSome
          ↔ (PyDict.get? d1 k).isSome ∨ (PyDict.get? d2 k).isSome)
    ∧ dcu [("a", 1), ("b", 2)] [("b", 3), ("c", 4)]
        = [("a", (1 : Int)), ("b", 3), ("c", 4)]
    ∧ (∀ (σ : Store Int) (a1 a2 : Nat), a1 < σ.cells.length →
        σ.readA a1 = d1 → ((dcuH σ a1 a2).1).readA a1 = d1) := by
  refine ⟨fun k => get?_update d1 d2 hnd k, fun k => ?_, rfl, fun σ a1 a2 h hr => ?_⟩
  · simp only [dcu]
    rw [get?_update d1 d2 hnd k]
    cases PyDict.get? d2 k <;> cases PyDict.get? d1 k <;> simp [Option.or]
  · rw [dcuH_readA_of_lt _ _ _ _ h, hr]

/-- Claim C5, witness: the merge theorem applied to the spec's concrete
dicts, evaluated at the overridden key `b`. -/
theorem dcu_merge_spec_witness :
    PyDict.get? (dcu [("a", (1 : Int)), ("b", 2)] [("b", 3), ("c", 4)]) "b"
      = (PyDict.get? [("b", (3 : Int)), ("c", 4)] "b").or
          (PyDict.get? [("a", (1 : Int)), ("b", 2)] "b") :=
  (dcu_merge_spec [("a", 1), ("b", 2)] [("b", 3), ("c", 4)] (by decide)).1 "b"

/-- Claim C6 (confirmed): paging a stable list of 5 items with `limit = 2`
from `offset = 0` issues exactly 3 page requests returning 2, 2 and 1 items
in that order, visits all 5 items, and terminates after the page of size
less than the limit. -/
theorem paginate_five_items (items : List Nat) (h : items.length = 5) :
    (paginate items 2).map List.length = [2, 2, 1]
    ∧ (paginate items 2).flatten = items
    ∧ (paginate items 2).length = 3 := by
  match items, h with
  | [a, b, c, d, e], _ => exact ⟨rfl, rfl, rfl⟩

/-- Claim C6, witness: the pagination theorem on the list 0..4. -/
theorem paginate_five_items_witness :
    (paginate [0, 1, 2, 3, 4] 2).map List.length = [2, 2, 1]
    ∧ (paginate [0, 1, 2, 3, 4] 2).flatten = [0, 1, 2, 3, 4]
    ∧ (paginate [0, 1, 2, 3, 4] 2).length = 3 :=
  paginate_five_items [0, 1, 2, 3, 4] rfl

/-- Claim C7 (confirmed): once the per-run base parameter mapping is fully
constructed (the dict `{'auth': apikey}` of line 52 plus the validated
`args['site'] = site` of line 69), the rest of the run — an arbitrary
sequence of API calls each merging per-call overrides via `dcu` — leaves the
base dict object's contents untouched: `dcu` writes only to fresh copies. -/
theorem args_readonly_after_construction (σ0 : Store Json) (apikey : String)
    (site : Int) (ds : List (PyDict Json)) :
    (runCalls (constructArgs σ0 apikey site).1 (constructArgs σ0 apikey site).2 ds).readA
        (constructArgs σ0 apikey site).2
      = [("auth", Json.str apikey), ("site", Json.num site)] := by
  have hsnd : (constructArgs σ0 apikey site).2 = σ0.cells.length := rfl
  have hfst : (constructArgs σ0 apikey site).1
      = ((σ0.alloc (argsInit apikey)).1).writeA σ0.cells.length
          (PyDict.setItem (((σ0.alloc (argsInit apikey)).1).readA σ0.cells.length)
            "site" (Json.num site)) := rfl
  have hback : ((σ0.alloc (argsInit apikey)).1).readA σ0.cells.length
      = argsInit apikey := readA_alloc_last σ0 (argsInit apikey)
  have hlen : ((constructArgs σ0 apikey site).1).cells.length
      = σ0.cells.length + 1 := by
    rw [hfst, writeA_length, alloc_length]
  have hread : ((constructArgs σ0 apikey site).1).readA σ0.cells.length
      = PyDict.setItem (argsInit apikey) "site" (Json.num site) := by
    rw [hfst, hback]
    exact readA_writeA_self _ _ _ (by rw [alloc_length]; omega)
  have hset : PyDict.setItem (argsInit apikey) "site" (Json.num site)
      = [("auth", Json.str apikey), ("site", Json.num site)] := rfl
  rw [hsnd, runCalls_readA ds _ _ (by omega), hread, hset]

/-- Claim C8 (confirmed): the timestamp 2024-01-05 13:07:09 renders as
`2024-01-05 13:07` under `API_MINUTE_FORMAT` and as `2024-01-05 13:07:09`
under `API_SECONDS_FORMAT`. -/
theorem strftime_formats :
    strftime ⟨2024, 1, 5, 13, 7, 9⟩ API_MINUTE_FORMAT = "2024-01-05 13:07"
    ∧ strftime ⟨2024, 1, 5, 13, 7, 9⟩ API_SECONDS_FORMAT = "2024-01-05 13:07:09" :=
  ⟨rfl, rfl⟩

/-- Claim C9 (confirmed): on a 2xx response whose parsed body lacks the
`success` key, or reports `success = true` without a `data` key while
`getdata` is set, or reports `success = false` without an `error` key,
`respcheck` raises a `KeyError` naming the missing key — a kind distinct
from both typed failures, so a success envelope without `data` is an error,
not an empty result. -/
theorem respcheck_missing_keys (s : Nat) (content : String)
    (fields : List (String × Json)) (getdata : Bool)
    (h1 : 200 ≤ s) (h2 : s < 300) :
    (PyDict.get? fields "success" = none →
      respcheck ⟨s, content, some (.obj fields)⟩ getdata
        = .error (.keyError "success"))
    ∧ (PyDict.get? fields "success" = some (Json.bool true) →
        PyDict.get? fields "data" = none →
        respcheck ⟨s, content, some (.obj fields)⟩ true
          = .error (.keyError "data"))
    ∧ (PyDict.get? fields "success" = some (Json.bool false) →
        PyDict.get? fields "error" = none →
        respcheck ⟨s, content, some (.obj fields)⟩ getdata
          = .error (.keyError "error")) := by
  have hok : (Response.mk s content (some (.obj fields))).ok = true := by
    simp [Response.ok]
    omega
  refine ⟨fun hs => ?_, fun hs hd => ?_, fun hs he => ?_⟩
  · simp [respcheck, hok, hs]
  · simp [respcheck, hok, hs, hd, truthy]
  · simp [respcheck, hok, hs, he, truthy]

/-- Claim C9, witness: the missing-key theorem on a concrete 200 response
whose body is the object `{"foo": null}`, which lacks `success`. -/
theorem respcheck_missing_keys_witness :
    (PyDict.get? [("foo", Json.null)] "success" = none →
      respcheck ⟨200, "body", some (.obj [("foo", Json.null)])⟩ true
        = .error (.keyError "success"))
    ∧ (PyDict.get? [("foo", Json.null)] "success" = some (Json.bool true) →
        PyDict.get? [("foo", Json.null)] "data" = none →
        respcheck ⟨200, "body", some (.obj [("foo", Json.null)])⟩ true
          = .error (.keyError "data"))
    ∧ (PyDict.get? [("foo", Json.null)] "success" = some (Json.bool false) →
        PyDict.get? [("foo", Json.null)] "error" = none →
        respcheck ⟨200, "body", some (.obj [("foo", Json.null)])⟩ true
          = .error (.keyError "error")) :=
  respcheck_missing_keys 200 "body" [("foo", Json.null)] true (by decide) (by decide)

/-- Claim C10 (confirmed): `dcu` returns a dict object distinct from both
inputs, leaves the overrides dict as unmutated as the base, and writing any
contents into the returned object afterwards changes neither input. -/
theorem dcuH_fresh_no_alias (σ : Store Json) (a1 a2 : Nat)
    (h1 : a1 < σ.cells.length) (h2 : a2 < σ.cells.length) :
    (dcuH σ a1 a2).2 ≠ a1 ∧ (dcuH σ a1 a2).2 ≠ a2
    ∧ ((dcuH σ a1 a2).1).readA a1 = σ.readA a1
    ∧ ((dcuH σ a1 a2).1).readA a2 = σ.readA a2
    ∧ ∀ d : PyDict Json,
        (((dcuH σ a1 a2).1).writeA (dcuH σ a1 a2).2 d).readA a1 = σ.readA a1
        ∧ (((dcuH σ a1 a2).1).writeA (dcuH σ a1 a2).2 d).readA a2 = σ.readA a2 := by
  have hs : (dcuH σ a1 a2).2 = σ.cells.length := dcuH_snd σ a1 a2
  refine ⟨by rw [hs]; omega, by rw [hs]; omega,
    dcuH_readA_of_lt _ _ _ _ h1, dcuH_readA_of_lt _ _ _ _ h2, fun d => ?_⟩
  rw [hs]
  constructor
  · rw [readA_writeA_ne _ _ _ _ (by omega), dcuH_readA_of_lt _ _ _ _ h1]
  · rw [readA_writeA_ne _ _ _ _ (by omega), dcuH_readA_of_lt _ _ _ _ h2]

/-- Claim C10, witness: on a concrete two-dict heap, the result of `dcu` is
a fresh address and the base dict's contents survive the call. -/
theorem dcuH_fresh_no_alias_witness :
    (dcuH ⟨[[("a", Json.num 1)], [("b", Json.num 2)]]⟩ 0 1).2 ≠ 0
    ∧ ((dcuH ⟨[[("a", Json.num 1)], [("b", Json.num 2)]]⟩ 0 1).1).readA 0
        = (Store.mk (α := Json) [[("a", Json.num 1)], [("b", Json.num 2)]]).readA 0 :=
  ⟨(dcuH_fresh_no_alias ⟨[[("a", Json.num 1)], [("b", Json.num 2)]]⟩ 0 1
      (by decide) (by decide)).1,
   (dcuH_fresh_no_alias ⟨[[("a", Json.num 1)], [("b", Json.num 2)]]⟩ 0 1
      (by decide) (by decide)).2.2.1⟩

end L2L
